import Mathlib

/-!
Shallow embedding of the asset-lifecycle core of `src/app.py` (WHILL EU asset
management): the depreciation calculator `calc_depreciation`, the location
transition `location_add`, the approval actions `approve_asset` and
`approve_transaction`, the submission `transaction_submit`, and the general
edit `asset_edit`.  Database rows are modelled as Lean structures, SQL NULL as
`Option.none`, the location-history table as a list, and the ambient clock
`datetime.date.today()` as an explicit `Date` argument.  Python floats are
modelled by exact rationals; `round(x, 2)` is modelled by `round2` (half-up
ties on exact rationals, where CPython rounds binary doubles with half-even
ties — no statement below sits on a tie or on double precision).
-/

/-- A calendar date, as produced by `datetime.date.fromisoformat`. -/
structure Date where
  year : ℤ
  month : ℤ
  day : ℤ
deriving DecidableEq, Repr

/-- Number of days in a month, Gregorian calendar (as validated by
`datetime.date`). -/
def daysInMonth (y m : ℤ) : ℤ :=
  if m = 2 then
    if y % 4 = 0 ∧ (y % 100 ≠ 0 ∨ y % 400 = 0) then 29 else 28
  else if m = 4 ∨ m = 6 ∨ m = 9 ∨ m = 11 then 30
  else 31

/-- Numeric value of a decimal digit character. -/
def digitVal (c : Char) : ℤ := (c.toNat : ℤ) - 48

/-- `datetime.date.fromisoformat` on a string already truncated to 10
characters: accepts exactly `YYYY-MM-DD` with a valid calendar date; `none`
models the `ValueError` branch caught by `calc_depreciation`. -/
def parseDate (s : String) : Option Date :=
  match s.toList with
  | [y1, y2, y3, y4, d1, m1, m2, d2, dd1, dd2] =>
    if y1.isDigit ∧ y2.isDigit ∧ y3.isDigit ∧ y4.isDigit ∧ d1 = '-' ∧
       m1.isDigit ∧ m2.isDigit ∧ d2 = '-' ∧ dd1.isDigit ∧ dd2.isDigit then
      let y := digitVal y1 * 1000 + digitVal y2 * 100 + digitVal y3 * 10 + digitVal y4
      let m := digitVal m1 * 10 + digitVal m2
      let d := digitVal dd1 * 10 + digitVal dd2
      if 1 ≤ m ∧ m ≤ 12 ∧ 1 ≤ d ∧ d ≤ daysInMonth y m then
        some ⟨y, m, d⟩
      else none
    else none
  | _ => none

/-- Python `round(x, 2)`: round to 2 decimal places.  `⌊100 * x + 1/2⌋` is
Mathlib's `round (100 * x)` (`round_eq`). -/
def round2 (x : ℚ) : ℚ := (⌊100 * x + 1 / 2⌋ : ℚ) / 100

/-- One row of the `assets` table (after `normalize`: NUMERIC as rational,
NULL as `none`). -/
structure AssetRec where
  asset_id : String
  serial_number : String
  asset_name : String
  asset_type : String
  model : String
  purchase_date : Option String
  purchase_value : Option ℚ
  currency : String
  dep_method : Option String
  useful_life_months : Option ℤ
  current_location : String
  status : String
  responsible : String
  notes : Option String
  approval_status : String
  updated_at : Option String
deriving DecidableEq, Repr

/-- The dict returned by `calc_depreciation`. -/
structure DepSnapshot where
  monthly : ℚ
  accumulated : ℚ
  book_value : ℚ
  months_elapsed : ℤ
  fully_dep : Bool
deriving DecidableEq, Repr

/-- `float(asset.get("purchase_value") or 0)`. -/
def pvOf (a : AssetRec) : ℚ := a.purchase_value.getD 0

/-- `str(asset.get("purchase_date") or "")[:10]`. -/
def pdOf (a : AssetRec) : String := (a.purchase_date.getD "").take 10

/-- `asset.get("dep_method") or "None"`. -/
def methOf (a : AssetRec) : String := a.dep_method.getD "None"

/-- `int(asset.get("useful_life_months") or 60)`: `None` and `0` are falsy in
Python, so both fall back to 60. -/
def effLife (a : AssetRec) : ℤ :=
  match a.useful_life_months with
  | none => 60
  | some v => if v = 0 then 60 else v

/-- `max(0, (today.year-start.year)*12 + (today.month-start.month))`. -/
def monthsBetween (start today : Date) : ℤ :=
  max 0 ((today.year - start.year) * 12 + (today.month - start.month))

/-- The method dispatch of `calc_depreciation` (the `if meth == ...` chain),
after purchase facts have been extracted and the months computed. -/
def calcCore (pv : ℚ) (life : ℤ) (meth : String) (months : ℤ) : DepSnapshot :=
  if meth = "Straight-Line" then
    let monthly : ℚ := pv / (life : ℚ)
    let accumulated : ℚ := min pv (monthly * (months : ℚ))
    let book_value : ℚ := max 0 (pv - accumulated)
    ⟨round2 monthly, round2 accumulated, round2 book_value, months,
      decide (life ≤ months)⟩
  else if meth = "Declining Balance" then
    let mr : ℚ := 2 / (life : ℚ) / 12
    let book_value : ℚ := pv * (1 - mr) ^ months.toNat
    ⟨round2 (book_value * mr), round2 (pv - book_value), round2 book_value,
      months, decide (life ≤ months)⟩
  else
    ⟨round2 0, round2 0, round2 pv, months, decide (life ≤ months)⟩

/-- `calc_depreciation` (src/app.py lines 252-272).  The `today` argument
models the value the source reads ambiently via `datetime.date.today()`.  The
function is total: the `except` around `date.fromisoformat` is the `none`
branch of `parseDate`. -/
def calc_depreciation (a : AssetRec) (today : Date) : DepSnapshot :=
  if pdOf a = "" ∨ pvOf a = 0 ∨ methOf a = "None" then
    ⟨0, 0, pvOf a, 0, false⟩
  else
    match parseDate (pdOf a) with
    | none => ⟨0, 0, pvOf a, 0, false⟩
    | some start => calcCore (pvOf a) (effLife a) (methOf a) (monthsBetween start today)

/-- `APPROVERS = ["Yuki", "Lo"]`. -/
def APPROVERS : List String := ["Yuki", "Lo"]

/-- One row of the `location_history` table. -/
structure LocEntry where
  asset_id : String
  date_from : Option String
  date_to : Option String
  location : String
  country : String
  customer : Option String
  purpose : String
  shipped_by : Option String
  notes : Option String
  created_by : String
deriving DecidableEq, Repr

/-- The SQL open-interval test `date_to IS NULL OR date_to=''`. -/
def isOpen (e : LocEntry) : Prop := e.date_to = none ∨ e.date_to = some ""

instance (e : LocEntry) : Decidable (isOpen e) := by unfold isOpen; infer_instance

/-- Number of open location-history rows of one asset. -/
def openCount (hist : List LocEntry) (aid : String) : ℕ :=
  (hist.filter fun e => decide (e.asset_id = aid ∧ isOpen e)).length

/-- The first statement of `location_add`: `UPDATE location_history SET
date_to=%s WHERE asset_id=%s AND (date_to IS NULL OR date_to='')` with the
form's `date_from` as parameter. -/
def closeOpen (hist : List LocEntry) (aid df : String) : List LocEntry :=
  hist.map fun e => if e.asset_id = aid ∧ isOpen e then { e with date_to := some df } else e

/-- The relocation form (`request.form`); `none` models an absent key, the
`.get(key, default)` defaults are applied where the code applies them. -/
structure LocForm where
  date_from : Option String
  date_to : Option String
  location : Option String
  country : Option String
  customer : Option String
  purpose : Option String
  shipped_by : Option String
  notes : Option String
  status : Option String
deriving DecidableEq, Repr

/-- The row inserted by `location_add`. -/
def newLocEntry (aid : String) (f : LocForm) (u : String) : LocEntry :=
  { asset_id := aid
    date_from := some (f.date_from.getD "")
    date_to := some (f.date_to.getD "")
    location := f.location.getD ""
    country := f.country.getD ""
    customer := some (f.customer.getD "")
    purpose := f.purpose.getD ""
    shipped_by := some (f.shipped_by.getD "")
    notes := some (f.notes.getD "")
    created_by := u }

/-- `location_add` (src/app.py lines 506-522): close all open rows of the
asset to the new `date_from`, insert the new row, update the asset's
`current_location` and `status`. -/
def location_add (st : List LocEntry × AssetRec) (f : LocForm) (u now : String) :
    List LocEntry × AssetRec :=
  (closeOpen st.1 st.2.asset_id (f.date_from.getD "") ++ [newLocEntry st.2.asset_id f u],
   { st.2 with
      current_location := f.location.getD ""
      status := f.status.getD "With Customer"
      updated_at := some now })

/-- A sequence of relocation calls, oldest first. -/
def location_add_seq (st : List LocEntry × AssetRec) (fs : List LocForm) (u now : String) :
    List LocEntry × AssetRec :=
  fs.foldl (fun s f => location_add s f u now) st

/-- The row inserted by `approve_asset` on approval: `(asset_id, date_from,
location, country='', purpose='Initial receipt', created_by)`; `date_to` is
not in the column list, hence NULL. -/
def initialReceiptEntry (a : AssetRec) (u : String) : LocEntry :=
  { asset_id := a.asset_id
    date_from := a.purchase_date
    date_to := none
    location := a.current_location
    country := ""
    customer := none
    purpose := "Initial receipt"
    shipped_by := none
    notes := none
    created_by := u }

/-- `approve_asset` (src/app.py lines 347-364) on a found asset: non-approvers
are turned away with no state change; `action == "approve"` approves and
inserts the initial location row; any other action rejects and prefixes the
reason to the notes. -/
def approve_asset (u action reason : String) (a : AssetRec) (hist : List LocEntry) :
    AssetRec × List LocEntry :=
  if u ∈ APPROVERS then
    if action = "approve" then
      ({ a with approval_status := "approved", status := "Active" },
       hist ++ [initialReceiptEntry a u])
    else
      ({ a with approval_status := "rejected",
                notes := some ("[REJECTED: " ++ reason ++ "] " ++ (a.notes.getD "")) },
       hist)
  else (a, hist)

/-- One row of the `sales_disposal` table. -/
structure TxRec where
  asset_id : String
  tx_type : String
  tx_date : String
  book_value_at_tx : ℚ
  sale_price : ℚ
  buyer : String
  buyer_contact : String
  invoice_ref : String
  notes : String
  approval_status : String
  approved_by : Option String
  approved_at : Option String
  reject_reason : Option String
  created_by : String
deriving DecidableEq, Repr

/-- `transaction_submit` (src/app.py lines 556-572) on a found transaction:
unconditionally `UPDATE sales_disposal SET approval_status='pending'` and call
`send_approval_email`; the Bool records that the notification call was made.
There is no guard on the current `approval_status`. -/
def transaction_submit (tx : TxRec) : TxRec × Bool :=
  ({ tx with approval_status := "pending" }, true)

/-- `approve_transaction` (src/app.py lines 366-383) on a found transaction:
non-approvers are turned away with no state change; `action == "approve"`
approves the transaction and cascades the owning asset's status; any other
action rejects, recording the reason, and leaves the asset row untouched. -/
def approve_transaction (u action reason now : String) (tx : TxRec) (a : AssetRec) :
    TxRec × AssetRec :=
  if u ∈ APPROVERS then
    if action = "approve" then
      ({ tx with approval_status := "approved", approved_by := some u,
                 approved_at := some now },
       { a with status := if tx.tx_type = "Sale" then "Sold" else "Disposed",
                updated_at := some now })
    else
      ({ tx with approval_status := "rejected", reject_reason := some reason,
                 approved_by := some u, approved_at := some now },
       a)
  else (tx, a)

/-- The asset edit form (`request.form` in `asset_edit`); fields read with
`f[...]` are required, fields read with `f.get(...)` are optional. -/
structure EditForm where
  serial_number : String
  asset_name : String
  asset_type : String
  model : Option String
  purchase_date : Option String
  purchase_value : Option ℚ
  currency : Option String
  dep_method : Option String
  useful_life_months : Option ℤ
  current_location : Option String
  status : Option String
  responsible : Option String
  notes : Option String
deriving DecidableEq, Repr

/-- `asset_edit` (src/app.py lines 472-491), POST branch: overwrite the listed
columns with the form values (defaults as in the code); `asset_id` and
`approval_status` are not in the UPDATE list.  The `status` column is written
verbatim from the form. -/
def asset_edit (f : EditForm) (now : String) (a : AssetRec) : AssetRec :=
  { a with
    serial_number := f.serial_number
    asset_name := f.asset_name
    asset_type := f.asset_type
    model := f.model.getD ""
    purchase_date := some (f.purchase_date.getD "")
    purchase_value := some (f.purchase_value.getD 0)
    currency := f.currency.getD "EUR"
    dep_method := some (f.dep_method.getD "Declining Balance")
    useful_life_months := some (f.useful_life_months.getD 60)
    current_location := f.current_location.getD ""
    status := f.status.getD "Active"
    responsible := f.responsible.getD ""
    notes := some (f.notes.getD "")
    updated_at := some now }

/-- Scenario A of the spec: purchased 2023-01-01, value 12000, Straight-Line,
life 60 months. -/
def scenarioA : AssetRec :=
  { asset_id := "AD-001", serial_number := "SN-AD-0001", asset_name := "AD Device 1",
    asset_type := "AD Device", model := "AD Model A",
    purchase_date := some "2023-01-01", purchase_value := some 12000,
    currency := "EUR", dep_method := some "Straight-Line",
    useful_life_months := some 60, current_location := "NEN",
    status := "Active", responsible := "Minami", notes := none,
    approval_status := "approved", updated_at := none }

-- ── helper lemmas ────────────────────────────────────────────

lemma round2_eval {x : ℚ} (k : ℤ) (h1 : (k : ℚ) ≤ 100 * x + 1 / 2)
    (h2 : 100 * x + 1 / 2 < (k : ℚ) + 1) : round2 x = (k : ℚ) / 100 := by
  have hf : ⌊(100 : ℚ) * x + 1 / 2⌋ = k := Int.floor_eq_iff.mpr ⟨h1, h2⟩
  unfold round2
  rw [hf]

lemma round2_zero : round2 0 = 0 := by
  rw [round2_eval 0 (by norm_num) (by norm_num)]
  norm_num

lemma round2_mono {x y : ℚ} (h : x ≤ y) : round2 x ≤ round2 y := by
  unfold round2
  have hf : ⌊(100 : ℚ) * x + 1 / 2⌋ ≤ ⌊(100 : ℚ) * y + 1 / 2⌋ :=
    Int.floor_mono (by linarith)
  have hq : ((⌊(100 : ℚ) * x + 1 / 2⌋ : ℤ) : ℚ) ≤ ((⌊(100 : ℚ) * y + 1 / 2⌋ : ℤ) : ℚ) := by
    exact_mod_cast hf
  linarith

lemma round2_close (x : ℚ) : |round2 x - x| ≤ 1 / 200 := by
  have h1 : ((⌊(100 : ℚ) * x + 1 / 2⌋ : ℤ) : ℚ) ≤ 100 * x + 1 / 2 := Int.floor_le _
  have h2 : 100 * x + 1 / 2 - 1 < ((⌊(100 : ℚ) * x + 1 / 2⌋ : ℤ) : ℚ) := Int.sub_one_lt_floor _
  unfold round2
  rw [abs_le]
  constructor <;> [linarith; linarith]

lemma parseDate_empty : parseDate "" = none := by decide

/-- If the date parses and the guards fail, `calc_depreciation` is
`calcCore` applied at the parsed start date. -/
lemma calc_eq_core (a : AssetRec) (today s : Date)
    (hpd : parseDate (pdOf a) = some s) (hpv : pvOf a ≠ 0) (hm : methOf a ≠ "None") :
    calc_depreciation a today = calcCore (pvOf a) (effLife a) (methOf a) (monthsBetween s today) := by
  have hpd0 : pdOf a ≠ "" := by
    intro h
    rw [h, parseDate_empty] at hpd
    exact Option.noConfusion hpd
  unfold calc_depreciation
  rw [if_neg (by simp [hpd0, hpv, hm]), hpd]

lemma calcCore_SL (pv : ℚ) (life months : ℤ) :
    calcCore pv life "Straight-Line" months =
      ⟨round2 (pv / (life : ℚ)),
       round2 (min pv (pv / (life : ℚ) * (months : ℚ))),
       round2 (max 0 (pv - min pv (pv / (life : ℚ) * (months : ℚ)))),
       months, decide (life ≤ months)⟩ := rfl

lemma calcCore_DB (pv : ℚ) (life months : ℤ) :
    calcCore pv life "Declining Balance" months =
      ⟨round2 (pv * (1 - 2 / (life : ℚ) / 12) ^ months.toNat * (2 / (life : ℚ) / 12)),
       round2 (pv - pv * (1 - 2 / (life : ℚ) / 12) ^ months.toNat),
       round2 (pv * (1 - 2 / (life : ℚ) / 12) ^ months.toNat),
       months, decide (life ≤ months)⟩ := rfl

/-- Scenario A evaluated: 12 elapsed months, monthly 200, accumulated 2400,
book value 9600, not fully depreciated. -/
lemma scenarioA_eval :
    calc_depreciation scenarioA ⟨2024, 1, 1⟩ = ⟨200, 2400, 9600, 12, false⟩ := by
  rw [calc_eq_core scenarioA ⟨2024, 1, 1⟩ ⟨2023, 1, 1⟩ (by decide) (by decide) (by decide)]
  rw [show methOf scenarioA = "Straight-Line" from rfl, calcCore_SL]
  rw [show pvOf scenarioA = 12000 from rfl]
  rw [show ((effLife scenarioA : ℚ)) = ((60 : ℤ) : ℚ) from rfl]
  rw [show monthsBetween ⟨2023, 1, 1⟩ ⟨2024, 1, 1⟩ = 12 from rfl]
  rw [DepSnapshot.mk.injEq]
  have e1 : (12000 : ℚ) / ((60 : ℤ) : ℚ) = 200 := by norm_num
  have e2 : min (12000 : ℚ) (200 * ((12 : ℤ) : ℚ)) = 2400 := by norm_num
  have e3 : max (0 : ℚ) (12000 - 2400) = 9600 := by norm_num
  rw [e1, e2, e3]
  refine ⟨?_, ?_, ?_, rfl, by decide⟩
  · rw [round2_eval 20000 (by norm_num) (by norm_num)]; norm_num
  · rw [round2_eval 240000 (by norm_num) (by norm_num)]; norm_num
  · rw [round2_eval 960000 (by norm_num) (by norm_num)]; norm_num


-- ── C2: Straight-Line depreciation ───────────────────────────

/-- **C2**: for every asset with method Straight-Line, a parseable purchase
date and positive purchase value (and a positive useful life, as the data
model requires): monthly = purchaseValue / usefulLifeMonths, accumulated =
min(purchaseValue, monthly × monthsElapsed), bookValue = max(0, purchaseValue
− accumulated), each rounded to 2 decimals only at the result boundary; the
book value is monotonically non-increasing as the evaluation date advances
and is exactly 0 once monthsElapsed ≥ usefulLifeMonths; Scenario A (purchase
2023-01-01, value 12000, life 60, evaluated 2024-01-01) yields monthly 200,
accumulated 2400, book value 9600, not fully depreciated. -/
theorem straight_line_depreciation (a : AssetRec) (s t t2 : Date)
    (hm : a.dep_method = some "Straight-Line")
    (hpd : parseDate (pdOf a) = some s)
    (hpv : 0 < pvOf a) (hl : 0 < effLife a) :
    (calc_depreciation a t).monthly = round2 (pvOf a / (effLife a : ℚ)) ∧
    (calc_depreciation a t).accumulated =
      round2 (min (pvOf a) (pvOf a / (effLife a : ℚ) * (monthsBetween s t : ℚ))) ∧
    (calc_depreciation a t).book_value =
      round2 (max 0 (pvOf a - min (pvOf a) (pvOf a / (effLife a : ℚ) * (monthsBetween s t : ℚ)))) ∧
    (calc_depreciation a t).months_elapsed = monthsBetween s t ∧
    (calc_depreciation a t).fully_dep = decide (effLife a ≤ monthsBetween s t) ∧
    (t.year * 12 + t.month ≤ t2.year * 12 + t2.month →
      (calc_depreciation a t2).book_value ≤ (calc_depreciation a t).book_value) ∧
    (effLife a ≤ monthsBetween s t → (calc_depreciation a t).book_value = 0) ∧
    calc_depreciation scenarioA ⟨2024, 1, 1⟩ = ⟨200, 2400, 9600, 12, false⟩ := by
  have hmeth : methOf a = "Straight-Line" := by rw [methOf, hm]; rfl
  have hN : methOf a ≠ "None" := by rw [hmeth]; decide
  have hpv0 : pvOf a ≠ 0 := ne_of_gt hpv
  have key : ∀ u : Date, calc_depreciation a u =
      ⟨round2 (pvOf a / (effLife a : ℚ)),
       round2 (min (pvOf a) (pvOf a / (effLife a : ℚ) * (monthsBetween s u : ℚ))),
       round2 (max 0 (pvOf a - min (pvOf a) (pvOf a / (effLife a : ℚ) * (monthsBetween s u : ℚ)))),
       monthsBetween s u, decide (effLife a ≤ monthsBetween s u)⟩ := by
    intro u
    rw [calc_eq_core a u s hpd hpv0 hN, hmeth, calcCore_SL]
  have hlq : (0 : ℚ) < (effLife a : ℚ) := by exact_mod_cast hl
  have hcnn : 0 ≤ pvOf a / (effLife a : ℚ) := le_of_lt (div_pos hpv hlq)
  refine ⟨by rw [key t], by rw [key t], by rw [key t], by rw [key t], by rw [key t],
    ?_, ?_, scenarioA_eval⟩
  · intro hle
    rw [key t, key t2]
    have hmle : monthsBetween s t ≤ monthsBetween s t2 := by
      unfold monthsBetween
      apply max_le_max le_rfl
      omega
    have hq : (monthsBetween s t : ℚ) ≤ (monthsBetween s t2 : ℚ) := by exact_mod_cast hmle
    apply round2_mono
    have hmin : min (pvOf a) (pvOf a / (effLife a : ℚ) * (monthsBetween s t : ℚ)) ≤
        min (pvOf a) (pvOf a / (effLife a : ℚ) * (monthsBetween s t2 : ℚ)) :=
      min_le_min le_rfl (mul_le_mul_of_nonneg_left hq hcnn)
    exact max_le_max le_rfl (by linarith)
  · intro hfull
    rw [key t]
    have hq : (effLife a : ℚ) ≤ (monthsBetween s t : ℚ) := by exact_mod_cast hfull
    have hge : pvOf a ≤ pvOf a / (effLife a : ℚ) * (monthsBetween s t : ℚ) := by
      rw [div_mul_eq_mul_div, le_div_iff₀ hlq]
      exact mul_le_mul_of_nonneg_left hq (le_of_lt hpv)
    rw [min_eq_left hge, sub_self, max_self, round2_zero]

/-- Witness for C2 at Scenario A. -/
theorem straight_line_depreciation_witness :
    scenarioA.dep_method = some "Straight-Line" ∧ 0 < pvOf scenarioA ∧ 0 < effLife scenarioA ∧
    calc_depreciation scenarioA ⟨2024, 1, 1⟩ = ⟨200, 2400, 9600, 12, false⟩ :=
  ⟨rfl, by decide, by decide,
    (straight_line_depreciation scenarioA ⟨2023, 1, 1⟩ ⟨2024, 1, 1⟩ ⟨2024, 1, 1⟩ rfl
      (by decide) (by decide) (by decide)).2.2.2.2.2.2.2⟩

-- ── C3: Declining-Balance depreciation ───────────────────────

/-- Seed asset DU-001: value 8500, Declining Balance, life 60, purchased
2022-04-01. -/
def seedDU1 : AssetRec :=
  { asset_id := "DU-001", serial_number := "SN-WHILL-0001",
    asset_name := "Model C Demo Unit 1", asset_type := "Demo Unit",
    model := "WHILL Model C", purchase_date := some "2022-04-01",
    purchase_value := some 8500, currency := "EUR",
    dep_method := some "Declining Balance", useful_life_months := some 60,
    current_location := "Germany", status := "With Customer",
    responsible := "Minami", notes := some "Deployed to Munich customer",
    approval_status := "approved", updated_at := none }

/-- A Declining-Balance asset chosen so that the rounded book value visibly
collapses: value 1, useful life 1 month (monthly rate 1/6). -/
def tinyDB : AssetRec :=
  { asset_id := "DU-TEST", serial_number := "SN-T", asset_name := "tiny",
    asset_type := "Demo Unit", model := "m", purchase_date := some "2023-01-01",
    purchase_value := some 1, currency := "EUR",
    dep_method := some "Declining Balance", useful_life_months := some 1,
    current_location := "NEN", status := "Active", responsible := "Minami",
    notes := none, approval_status := "approved", updated_at := none }

/-- **C3, counterexample**: the claim says the Declining-Balance book value
"strictly decreases each month but never reaches exactly 0".  The book value
the program returns is rounded to 2 decimals at the result boundary, and for
`tinyDB` (value 1, life 1, so monthly rate 1/6) the returned book value at 28
and 29 elapsed months is 0.01 both times (no strict decrease), and at 30
elapsed months it is exactly 0. -/
theorem declining_balance_rounded_book_hits_zero :
    (calc_depreciation tinyDB ⟨2025, 7, 1⟩).book_value = 0 ∧
    (calc_depreciation tinyDB ⟨2025, 5, 1⟩).book_value = 1 / 100 ∧
    (calc_depreciation tinyDB ⟨2025, 6, 1⟩).book_value = 1 / 100 := by
  have key : ∀ u : Date, calc_depreciation tinyDB u =
      calcCore (pvOf tinyDB) (effLife tinyDB) (methOf tinyDB)
        (monthsBetween ⟨2023, 1, 1⟩ u) := fun u =>
    calc_eq_core tinyDB u ⟨2023, 1, 1⟩ (by decide) (by decide) (by decide)
  refine ⟨?_, ?_, ?_⟩
  · rw [key ⟨2025, 7, 1⟩, show methOf tinyDB = "Declining Balance" from rfl, calcCore_DB,
      show pvOf tinyDB = 1 from rfl, show ((effLife tinyDB : ℚ)) = ((1 : ℤ) : ℚ) from rfl,
      show (monthsBetween ⟨2023, 1, 1⟩ ⟨2025, 7, 1⟩).toNat = 30 from rfl]
    have e : (1 : ℚ) * (1 - 2 / ((1 : ℤ) : ℚ) / 12) ^ 30 = (5 / 6 : ℚ) ^ 30 := by norm_num
    have h := @round2_eval ((5 / 6 : ℚ) ^ 30) 0 (by norm_num) (by norm_num)
    rw [e, h]
    norm_num
  · rw [key ⟨2025, 5, 1⟩, show methOf tinyDB = "Declining Balance" from rfl, calcCore_DB,
      show pvOf tinyDB = 1 from rfl, show ((effLife tinyDB : ℚ)) = ((1 : ℤ) : ℚ) from rfl,
      show (monthsBetween ⟨2023, 1, 1⟩ ⟨2025, 5, 1⟩).toNat = 28 from rfl]
    have e : (1 : ℚ) * (1 - 2 / ((1 : ℤ) : ℚ) / 12) ^ 28 = (5 / 6 : ℚ) ^ 28 := by norm_num
    have h := @round2_eval ((5 / 6 : ℚ) ^ 28) 1 (by norm_num) (by norm_num)
    rw [e, h]
    norm_num
  · rw [key ⟨2025, 6, 1⟩, show methOf tinyDB = "Declining Balance" from rfl, calcCore_DB,
      show pvOf tinyDB = 1 from rfl, show ((effLife tinyDB : ℚ)) = ((1 : ℤ) : ℚ) from rfl,
      show (monthsBetween ⟨2023, 1, 1⟩ ⟨2025, 6, 1⟩).toNat = 29 from rfl]
    have e : (1 : ℚ) * (1 - 2 / ((1 : ℤ) : ℚ) / 12) ^ 29 = (5 / 6 : ℚ) ^ 29 := by norm_num
    have h := @round2_eval ((5 / 6 : ℚ) ^ 29) 1 (by norm_num) (by norm_num)
    rw [e, h]
    norm_num

/-- **C3, amended**: for every Declining-Balance asset with parseable date,
positive value and positive useful life, with monthly rate
mr = (2/usefulLifeMonths)/12: the returned figures are the rounded values of
bookValue = pv·(1−mr)^monthsElapsed, accumulated = pv − bookValue and
monthly = bookValue·mr; the PRE-ROUNDING book value strictly decreases each
month and never reaches 0; the returned accumulated + bookValue equals the
purchase value within rounding (±0.01); the RETURNED book value is only
non-increasing (the counterexample shows it stalls and reaches exactly 0). -/
theorem declining_balance_depreciation (a : AssetRec) (s t t2 : Date)
    (hm : a.dep_method = some "Declining Balance")
    (hpd : parseDate (pdOf a) = some s)
    (hpv : 0 < pvOf a) (hl : 0 < effLife a) :
    (calc_depreciation a t).book_value =
      round2 (pvOf a * (1 - 2 / (effLife a : ℚ) / 12) ^ (monthsBetween s t).toNat) ∧
    (calc_depreciation a t).accumulated =
      round2 (pvOf a - pvOf a * (1 - 2 / (effLife a : ℚ) / 12) ^ (monthsBetween s t).toNat) ∧
    (calc_depreciation a t).monthly =
      round2 (pvOf a * (1 - 2 / (effLife a : ℚ) / 12) ^ (monthsBetween s t).toNat *
        (2 / (effLife a : ℚ) / 12)) ∧
    (∀ m : ℕ, pvOf a * (1 - 2 / (effLife a : ℚ) / 12) ^ (m + 1) <
      pvOf a * (1 - 2 / (effLife a : ℚ) / 12) ^ m) ∧
    (∀ m : ℕ, 0 < pvOf a * (1 - 2 / (effLife a : ℚ) / 12) ^ m) ∧
    |(calc_depreciation a t).accumulated + (calc_depreciation a t).book_value - pvOf a| ≤
      1 / 100 ∧
    (monthsBetween s t ≤ monthsBetween s t2 →
      (calc_depreciation a t2).book_value ≤ (calc_depreciation a t).book_value) := by
  have hmeth : methOf a = "Declining Balance" := by rw [methOf, hm]; rfl
  have hN : methOf a ≠ "None" := by rw [hmeth]; decide
  have hpv0 : pvOf a ≠ 0 := ne_of_gt hpv
  have key : ∀ u : Date, calc_depreciation a u =
      ⟨round2 (pvOf a * (1 - 2 / (effLife a : ℚ) / 12) ^ (monthsBetween s u).toNat *
         (2 / (effLife a : ℚ) / 12)),
       round2 (pvOf a - pvOf a * (1 - 2 / (effLife a : ℚ) / 12) ^ (monthsBetween s u).toNat),
       round2 (pvOf a * (1 - 2 / (effLife a : ℚ) / 12) ^ (monthsBetween s u).toNat),
       monthsBetween s u, decide (effLife a ≤ monthsBetween s u)⟩ := by
    intro u
    rw [calc_eq_core a u s hpd hpv0 hN, hmeth, calcCore_DB]
  have hlq : (0 : ℚ) < (effLife a : ℚ) := by exact_mod_cast hl
  have hl1 : (1 : ℚ) ≤ (effLife a : ℚ) := by exact_mod_cast hl
  have hmr0 : 0 < 2 / (effLife a : ℚ) / 12 :=
    div_pos (div_pos (by norm_num) hlq) (by norm_num)
  have hmr1 : 2 / (effLife a : ℚ) / 12 < 1 := by
    rw [div_div, div_lt_one (by positivity)]
    nlinarith
  have h1mr0 : (0 : ℚ) < 1 - 2 / (effLife a : ℚ) / 12 := by linarith
  refine ⟨by rw [key t], by rw [key t], by rw [key t], ?_, ?_, ?_, ?_⟩
  · intro m
    have hpow : 0 < pvOf a * (1 - 2 / (effLife a : ℚ) / 12) ^ m :=
      mul_pos hpv (pow_pos h1mr0 m)
    rw [pow_succ]
    nlinarith [mul_pos hpow hmr0]
  · intro m
    exact mul_pos hpv (pow_pos h1mr0 m)
  · rw [key t]
    have hc1 := round2_close
      (pvOf a - pvOf a * (1 - 2 / (effLife a : ℚ) / 12) ^ (monthsBetween s t).toNat)
    have hc2 := round2_close
      (pvOf a * (1 - 2 / (effLife a : ℚ) / 12) ^ (monthsBetween s t).toNat)
    rw [abs_le] at hc1 hc2 ⊢
    constructor <;> [linarith; linarith]
  · intro hle
    rw [key t, key t2]
    apply round2_mono
    apply mul_le_mul_of_nonneg_left _ (le_of_lt hpv)
    exact pow_le_pow_of_le_one (le_of_lt h1mr0) (by linarith) (Int.toNat_le_toNat hle)

/-- Witness for C3 (amended) at the seed asset DU-001, evaluated at
2023-04-01 (12 elapsed months). -/
theorem declining_balance_depreciation_witness :
    seedDU1.dep_method = some "Declining Balance" ∧ 0 < pvOf seedDU1 ∧ 0 < effLife seedDU1 ∧
    (calc_depreciation seedDU1 ⟨2023, 4, 1⟩).book_value =
      round2 (pvOf seedDU1 * (1 - 2 / (effLife seedDU1 : ℚ) / 12) ^
        (monthsBetween ⟨2022, 4, 1⟩ ⟨2023, 4, 1⟩).toNat) :=
  ⟨rfl, by decide, by decide,
    (declining_balance_depreciation seedDU1 ⟨2022, 4, 1⟩ ⟨2023, 4, 1⟩ ⟨2023, 4, 1⟩ rfl
      (by decide) (by decide) (by decide)).1⟩

-- ── C4: graceful degradation ─────────────────────────────────

/-- **C4**: whenever the purchase date is absent or unparseable, the purchase
value is 0 (or absent, which `or 0` also maps to 0), or the method is None,
`calc_depreciation` returns the zero snapshot with book value equal to the
purchase value, 0 elapsed months and fullyDepreciated false, for any
evaluation date.  The embedding is a total function, so no error is raised on
malformed dates: the `except` branch is the `parseDate _ = none` case. -/
theorem zero_snapshot_on_missing_data (a : AssetRec) (t : Date)
    (h : pdOf a = "" ∨ parseDate (pdOf a) = none ∨ pvOf a = 0 ∨ methOf a = "None") :
    calc_depreciation a t = ⟨0, 0, pvOf a, 0, false⟩ := by
  unfold calc_depreciation
  rcases h with h | h | h | h
  · rw [if_pos (Or.inl h)]
  · by_cases hc : pdOf a = "" ∨ pvOf a = 0 ∨ methOf a = "None"
    · rw [if_pos hc]
    · rw [if_neg hc, h]
  · rw [if_pos (Or.inr (Or.inl h))]
  · rw [if_pos (Or.inr (Or.inr h))]

/-- An asset row with an unparseable purchase date. -/
def badDateAsset : AssetRec :=
  { scenarioA with asset_id := "DU-BAD", purchase_date := some "not-a-date" }

/-- Witness for C4 at an asset whose purchase date does not parse. -/
theorem zero_snapshot_on_missing_data_witness :
    parseDate (pdOf badDateAsset) = none ∧
    calc_depreciation badDateAsset ⟨2030, 6, 15⟩ = ⟨0, 0, pvOf badDateAsset, 0, false⟩ :=
  ⟨by decide,
    zero_snapshot_on_missing_data badDateAsset ⟨2030, 6, 15⟩ (Or.inr (Or.inl (by decide)))⟩

-- ── C9: purity and the ambient clock ─────────────────────────

/-- **C9, counterexample**: in the source, `calc_depreciation` takes only the
asset; the evaluation date is read inside the function via
`datetime.date.today()` (an ambient clock), not supplied as an argument.
Holding the one supplied argument (`scenarioA`) fixed and letting the clock
state differ changes the result, so the output depends on state other than
the supplied arguments, against the claim. -/
theorem calc_depreciation_clock_dependent :
    calc_depreciation scenarioA ⟨2023, 1, 1⟩ ≠ calc_depreciation scenarioA ⟨2024, 1, 1⟩ := by
  intro h
  have h0 : (calc_depreciation scenarioA ⟨2023, 1, 1⟩).months_elapsed = 0 := by
    rw [calc_eq_core scenarioA ⟨2023, 1, 1⟩ ⟨2023, 1, 1⟩ (by decide) (by decide) (by decide)]
    rw [show methOf scenarioA = "Straight-Line" from rfl, calcCore_SL]
    decide
  have h12 : (calc_depreciation scenarioA ⟨2024, 1, 1⟩).months_elapsed = 12 := by
    rw [calc_eq_core scenarioA ⟨2024, 1, 1⟩ ⟨2023, 1, 1⟩ (by decide) (by decide) (by decide)]
    rw [show methOf scenarioA = "Straight-Line" from rfl, calcCore_SL]
    decide
  rw [h] at h0
  exact absurd (h0.symm.trans h12) (by decide)

/-- **C9, amended**: `calc_depreciation` is deterministic and side-effect
free: its result depends only on the asset's four financial fields
(`purchase_value`, `purchase_date`, `dep_method`, `useful_life_months`) and
the current date — two calls that agree on those and on the clock state
return identical snapshots.  The current date, however, is read ambiently
inside the function, not injected as a parameter. -/
theorem calc_depreciation_deterministic (a b : AssetRec) (t : Date)
    (h1 : a.purchase_value = b.purchase_value)
    (h2 : a.purchase_date = b.purchase_date)
    (h3 : a.dep_method = b.dep_method)
    (h4 : a.useful_life_months = b.useful_life_months) :
    calc_depreciation a t = calc_depreciation b t := by
  unfold calc_depreciation calcCore pvOf pdOf methOf effLife
  rw [h1, h2, h3, h4]

/-- Witness for C9 (amended): two asset rows differing in status, location,
name and notes but agreeing on the financial fields get the same snapshot. -/
theorem calc_depreciation_deterministic_witness :
    calc_depreciation scenarioA ⟨2024, 1, 1⟩ =
      calc_depreciation
        { scenarioA with status := "In Storage", current_location := "France",
                         asset_name := "renamed", notes := some "moved" }
        ⟨2024, 1, 1⟩ :=
  calc_depreciation_deterministic scenarioA
    { scenarioA with status := "In Storage", current_location := "France",
                     asset_name := "renamed", notes := some "moved" }
    ⟨2024, 1, 1⟩ rfl rfl rfl rfl

-- ── C10: default useful life ─────────────────────────────────

/-- **C10**: when `useful_life_months` is absent (SQL NULL) or 0, the
calculator substitutes the default life of 60 months before computing — the
effective life is 60 (hence nonzero, so neither the Straight-Line division
nor the Declining-Balance rate divides by zero), and the whole snapshot
equals the one for the same asset with life 60. -/
theorem default_useful_life (a : AssetRec) (t : Date)
    (h : a.useful_life_months = none ∨ a.useful_life_months = some 0) :
    effLife a = 60 ∧ (effLife a : ℚ) ≠ 0 ∧
    calc_depreciation a t = calc_depreciation { a with useful_life_months := some 60 } t := by
  have h60 : effLife a = 60 := by rcases h with h | h <;> simp [effLife, h]
  have h60b : effLife { a with useful_life_months := some 60 } = 60 := by simp [effLife]
  refine ⟨h60, by rw [h60]; norm_num, ?_⟩
  unfold calc_depreciation pvOf pdOf methOf
  rw [h60, h60b]

/-- Witness for C10: an asset row with NULL useful life. -/
theorem default_useful_life_witness :
    effLife { scenarioA with useful_life_months := none } = 60 ∧
    calc_depreciation { scenarioA with useful_life_months := none } ⟨2024, 1, 1⟩ =
      calc_depreciation
        { scenarioA with useful_life_months := some 60 } ⟨2024, 1, 1⟩ := by
  have h := default_useful_life { scenarioA with useful_life_months := none } ⟨2024, 1, 1⟩
    (Or.inl rfl)
  exact ⟨h.1, h.2.2⟩

-- ── C1: single open location interval ────────────────────────

lemma openCount_closeOpen (hist : List LocEntry) (aid df : String) (hdf : df ≠ "") :
    openCount (closeOpen hist aid df) aid = 0 := by
  unfold openCount
  rw [List.length_eq_zero, List.filter_eq_nil_iff]
  intro x hx
  unfold closeOpen at hx
  rcases List.mem_map.mp hx with ⟨e, -, rfl⟩
  simp only [decide_eq_true_eq]
  by_cases hc : e.asset_id = aid ∧ isOpen e
  · rw [if_pos hc]
    rintro ⟨-, ho⟩
    rcases ho with h | h
    · exact Option.noConfusion h
    · exact hdf (Option.some.inj h)
  · rw [if_neg hc]
    exact hc

lemma openCount_after_add (st : List LocEntry × AssetRec) (f : LocForm) (u now : String)
    (hdf : f.date_from.getD "" ≠ "") :
    openCount (location_add st f u now).1 st.2.asset_id ≤ 1 := by
  unfold location_add openCount
  rw [List.filter_append, List.length_append]
  have h0 := openCount_closeOpen st.1 st.2.asset_id (f.date_from.getD "") hdf
  unfold openCount at h0
  rw [h0, Nat.zero_add]
  exact List.length_filter_le _ _

lemma openCount_seq (fs : List LocForm) (st : List LocEntry × AssetRec) (u now : String)
    (h0 : openCount st.1 st.2.asset_id ≤ 1)
    (hfs : ∀ g ∈ fs, g.date_from.getD "" ≠ "") :
    openCount (location_add_seq st fs u now).1 (location_add_seq st fs u now).2.asset_id ≤ 1 := by
  induction fs generalizing st with
  | nil => exact h0
  | cons f tl ih =>
    simp only [location_add_seq, List.foldl_cons]
    have hstep : openCount (location_add st f u now).1
        (location_add st f u now).2.asset_id ≤ 1 :=
      openCount_after_add st f u now (hfs f (by simp))
    exact ih (location_add st f u now) hstep (fun g hg => hfs g (by simp [hg]))

/-- A well-formed relocation form: the new placement has a date. -/
def locFormGood : LocForm :=
  { date_from := some "2024-01-01", date_to := none, location := some "France",
    country := some "France", customer := some "ACME", purpose := some "Demo",
    shipped_by := some "UPS", notes := none, status := some "With Customer" }

/-- A relocation form submitted with an empty `date_from`. -/
def locFormEmptyFrom : LocForm :=
  { date_from := some "", date_to := none, location := some "NEN",
    country := none, customer := none, purpose := none,
    shipped_by := none, notes := none, status := none }

/-- **C1, counterexample**: the claim quantifies over ANY sequence of
`location_add` calls.  The close step sets `date_to` to the new form's
`date_from`; when that is the empty string the previously-open row stays open
(`date_to=''` still satisfies the open test), so after a normal relocation
followed by one with empty `date_from`, the asset has TWO open rows. -/
theorem location_add_two_open_intervals :
    openCount
      (location_add (location_add ([], seedDU1) locFormGood "Minami" "t1")
        locFormEmptyFrom "Minami" "t2").1 seedDU1.asset_id = 2 := by decide

/-- **C1, amended**: after any sequence of `location_add` calls in which every
call carries a nonempty `date_from`, at most one of the asset's
location-history rows is open; each call, as one step, first closes every
currently-open row of the asset (setting `date_to` to the new `date_from`),
then appends the new row (open iff the form's `date_to` is empty), and
updates the asset's `current_location` and `status` from the form. -/
theorem location_single_open_interval (st : List LocEntry × AssetRec) (fs : List LocForm)
    (f : LocForm) (u now : String)
    (h0 : openCount st.1 st.2.asset_id ≤ 1)
    (hfs : ∀ g ∈ fs, g.date_from.getD "" ≠ "") :
    openCount (location_add_seq st fs u now).1 (location_add_seq st fs u now).2.asset_id ≤ 1 ∧
    (location_add st f u now).1 =
      closeOpen st.1 st.2.asset_id (f.date_from.getD "") ++ [newLocEntry st.2.asset_id f u] ∧
    (location_add st f u now).2.current_location = f.location.getD "" ∧
    (location_add st f u now).2.status = f.status.getD "With Customer" ∧
    (location_add st f u now).2.asset_id = st.2.asset_id :=
  ⟨openCount_seq fs st u now h0 hfs, rfl, rfl, rfl, rfl⟩

/-- Witness for C1 (amended): one dated relocation of DU-001 from an empty
history leaves exactly one open row. -/
theorem location_single_open_interval_witness :
    openCount ([] : List LocEntry) seedDU1.asset_id ≤ 1 ∧
    openCount (location_add_seq ([], seedDU1) [locFormGood] "Minami" "t1").1
      (location_add_seq ([], seedDU1) [locFormGood] "Minami" "t1").2.asset_id ≤ 1 :=
  ⟨by decide,
    (location_single_open_interval ([], seedDU1) [locFormGood] locFormGood "Minami" "t1"
      (by decide) (by decide)).1⟩

-- ── C5: submit on a terminal transaction ─────────────────────

/-- A draft Sale transaction for DU-001. -/
def draftTx : TxRec :=
  { asset_id := "DU-001", tx_type := "Sale", tx_date := "2024-05-01",
    book_value_at_tx := 5000, sale_price := 6000, buyer := "ACME",
    buyer_contact := "", invoice_ref := "INV-1", notes := "",
    approval_status := "draft", approved_by := none, approved_at := none,
    reject_reason := none, created_by := "Minami" }

/-- The same transaction after approval. -/
def approvedTx : TxRec :=
  { draftTx with approval_status := "approved", approved_by := some "Yuki",
                 approved_at := some "2024-05-02" }

/-- **C5** (code bug): `transaction_submit` has no guard on the current
approval status.  Submitting a transaction that is already `approved` moves
it back to `pending` — so approved is not terminal — and the approval
notification is sent again, so a second approval notification is produced for
a non-draft transaction. -/
theorem submit_reopens_terminal_transaction :
    approvedTx.approval_status = "approved" ∧
    (transaction_submit approvedTx).1.approval_status = "pending" ∧
    (transaction_submit approvedTx).2 = true :=
  ⟨rfl, rfl, rfl⟩

-- ── C6: paths to Sold/Disposed ───────────────────────────────

/-- An edit form for DU-001 that changes nothing except setting
`status = "Sold"`. -/
def editSoldForm : EditForm :=
  { serial_number := "SN-WHILL-0001", asset_name := "Model C Demo Unit 1",
    asset_type := "Demo Unit", model := some "WHILL Model C",
    purchase_date := some "2022-04-01", purchase_value := some 8500,
    currency := some "EUR", dep_method := some "Declining Balance",
    useful_life_months := some 60, current_location := some "Germany",
    status := some "Sold", responsible := some "Minami", notes := none }

/-- **C6, counterexample**: `asset_edit` writes the form's `status` value
verbatim, so a plain edit turns DU-001 (no approved transaction involved —
`asset_edit` reads and writes no transaction row) from "With Customer"
straight into "Sold", against the claim that the cascade is the only path. -/
theorem asset_edit_sets_sold_directly :
    seedDU1.status = "With Customer" ∧
    (asset_edit editSoldForm "2024-06-01" seedDU1).status = "Sold" ∧
    (asset_edit editSoldForm "2024-06-01" seedDU1).asset_id = seedDU1.asset_id :=
  ⟨rfl, rfl, rfl⟩

/-- **C6, amended**: approving a transaction cascades the owning asset's
status to exactly Sold (tx_type = Sale) or Disposed (otherwise); but the
general edit operation writes the submitted status field verbatim (default
"Active"), so Sold/Disposed can also be reached by direct edit and the
"only via the cascade" invariant does not hold in the code. -/
theorem sold_status_paths (u reason now : String) (tx : TxRec) (a : AssetRec)
    (f : EditForm) (hu : u ∈ APPROVERS) :
    (approve_transaction u "approve" reason now tx a).2.status =
      (if tx.tx_type = "Sale" then "Sold" else "Disposed") ∧
    (asset_edit f now a).status = f.status.getD "Active" := by
  constructor
  · unfold approve_transaction
    rw [if_pos hu, if_pos rfl]
  · rfl

/-- Witness for C6 (amended) at approver Yuki, the draft Sale for DU-001 and
the Sold-setting edit form. -/
theorem sold_status_paths_witness :
    ("Yuki" ∈ APPROVERS) ∧
    (approve_transaction "Yuki" "approve" "" "2024-05-02" draftTx seedDU1).2.status =
      (if draftTx.tx_type = "Sale" then "Sold" else "Disposed") ∧
    (asset_edit editSoldForm "2024-06-01" seedDU1).status = editSoldForm.status.getD "Active" :=
  ⟨by decide,
    (sold_status_paths "Yuki" "" "2024-05-02" draftTx seedDU1 editSoldForm (by decide)).1,
    (sold_status_paths "Yuki" "" "2024-05-02" draftTx seedDU1 editSoldForm (by decide)).2⟩

-- ── C7: approving a pending asset ────────────────────────────

/-- **C7**: when an approver approves a pending asset, its approval status
becomes approved, its status becomes Active, and exactly one new
location-history row is appended for that asset, with purpose
"Initial receipt", `date_from` equal to the asset's purchase date, and an
open interval (`date_to` NULL). -/
theorem approve_asset_effects (u reason : String) (a : AssetRec) (hist : List LocEntry)
    (hu : u ∈ APPROVERS) (_hpending : a.approval_status = "pending") :
    (approve_asset u "approve" reason a hist).1.approval_status = "approved" ∧
    (approve_asset u "approve" reason a hist).1.status = "Active" ∧
    (approve_asset u "approve" reason a hist).2 = hist ++ [initialReceiptEntry a u] ∧
    (approve_asset u "approve" reason a hist).2.length = hist.length + 1 ∧
    (initialReceiptEntry a u).asset_id = a.asset_id ∧
    (initialReceiptEntry a u).purpose = "Initial receipt" ∧
    (initialReceiptEntry a u).date_from = a.purchase_date ∧
    isOpen (initialReceiptEntry a u) := by
  unfold approve_asset
  rw [if_pos hu, if_pos rfl]
  exact ⟨rfl, rfl, rfl, by simp, rfl, rfl, rfl, Or.inl rfl⟩

/-- A freshly submitted asset awaiting approval. -/
def pendingAsset : AssetRec :=
  { seedDU1 with asset_id := "DU-010", serial_number := "SN-WHILL-0010",
                 approval_status := "pending", status := "Pending Approval" }

/-- Witness for C7: Yuki approves the pending asset DU-010. -/
theorem approve_asset_effects_witness :
    ("Yuki" ∈ APPROVERS) ∧ pendingAsset.approval_status = "pending" ∧
    (approve_asset "Yuki" "approve" "" pendingAsset []).1.approval_status = "approved" ∧
    (approve_asset "Yuki" "approve" "" pendingAsset []).2 =
      [] ++ [initialReceiptEntry pendingAsset "Yuki"] := by
  have h := approve_asset_effects "Yuki" "" pendingAsset [] (by decide) rfl
  exact ⟨by decide, rfl, h.1, h.2.2.1⟩

-- ── C8: approve/reject a transaction ─────────────────────────

/-- **C8**: when an approver approves a transaction, its approval status
becomes approved and the approver identity and timestamp are recorded, and
the owning asset's status is cascaded to exactly Sold when tx_type is Sale
and Disposed otherwise; when they reject (any non-approve action), the
rejection reason, approver identity and timestamp are recorded on the
transaction and the asset row is left completely unchanged. -/
theorem approve_transaction_effects (u action reason now : String) (tx : TxRec)
    (a : AssetRec) (hu : u ∈ APPROVERS) :
    (action = "approve" →
      (approve_transaction u action reason now tx a).1.approval_status = "approved" ∧
      (approve_transaction u action reason now tx a).1.approved_by = some u ∧
      (approve_transaction u action reason now tx a).1.approved_at = some now ∧
      (approve_transaction u action reason now tx a).2.status =
        (if tx.tx_type = "Sale" then "Sold" else "Disposed")) ∧
    (action ≠ "approve" →
      (approve_transaction u action reason now tx a).1.approval_status = "rejected" ∧
      (approve_transaction u action reason now tx a).1.reject_reason = some reason ∧
      (approve_transaction u action reason now tx a).1.approved_by = some u ∧
      (approve_transaction u action reason now tx a).1.approved_at = some now ∧
      (approve_transaction u action reason now tx a).2 = a) := by
  constructor
  · intro h
    unfold approve_transaction
    rw [if_pos hu, if_pos h]
    exact ⟨rfl, rfl, rfl, rfl⟩
  · intro h
    unfold approve_transaction
    rw [if_pos hu, if_neg h]
    exact ⟨rfl, rfl, rfl, rfl, rfl⟩

/-- Witness for C8: Lo rejects the draft Sale (asset row untouched), and Lo
approves it (asset cascaded to Sold). -/
theorem approve_transaction_effects_witness :
    ("Lo" ∈ APPROVERS) ∧
    (approve_transaction "Lo" "reject" "duplicate" "2024-06-01" draftTx seedDU1).2 = seedDU1 ∧
    (approve_transaction "Lo" "approve" "" "2024-06-01" draftTx seedDU1).2.status = "Sold" := by
  refine ⟨by decide, ?_, ?_⟩
  · exact ((approve_transaction_effects "Lo" "reject" "duplicate" "2024-06-01" draftTx seedDU1
      (by decide)).2 (by decide)).2.2.2.2
  · have h := ((approve_transaction_effects "Lo" "approve" "" "2024-06-01" draftTx seedDU1
      (by decide)).1 rfl).2.2.2
    simpa using h
